import Mathlib

/-!
Verification development for the MediFlow patient-flow simulator
(`simulator.py`, with the parameter validation of `api.py`).

The discrete-event core (`Clinic` + `run_simulation`) is embedded as an
explicit step function over a simulation state, parameterised by a
deterministic random stream; `calculate_results` is embedded as a pure
function over the recorded observation lists.  Simulated time and all
metrics are exact rationals standing in for Python floats, so boundary
comparisons are exact where Python's are approximate.
-/

namespace MediFlow

/-! ### Random stream model

`simulator.py` consumes randomness from Python's global `random` module
(`random.seed`, `random.expovariate`).  That module is an external
dependency; it is modelled here by a concrete deterministic generator (a
linear congruential stand-in for the Mersenne Twister).  Every property
proved below relies only on the contract the real module guarantees:
seeding makes the stream a deterministic function of the seed, and each
draw deterministically advances the state. -/

/-- State of the global random number generator (stand-in for the state of
Python's `random` module). -/
structure RandomState where
  state : Nat
deriving DecidableEq, Repr

/-- One step of the stand-in generator (values in `[0, 2^31)`). -/
def lcgNext (n : Nat) : Nat := (n * 1103515245 + 12345) % 2147483648

/-- Models `random.seed(seed)` (simulator.py line 146): the resulting
generator state is a deterministic function of the integer seed alone. -/
def seedState (sd : Int) : RandomState := ⟨lcgNext sd.natAbs⟩

/-- Models `random.expovariate(rate)`: consumes one draw from the stream and
returns a duration in `(0, 1/rate]` for positive `rate`, together with the
advanced generator state.  (Runs with nonpositive rates are not modelled
faithfully by this draw function; see the validation analysis, which shows
no validated run reaches a draw with a nonpositive rate.) -/
def expoDraw (rate : ℚ) (r : RandomState) : ℚ × RandomState :=
  let n := lcgNext r.state
  (((n % 1000 + 1 : Nat) : ℚ) / (1000 * rate), ⟨n⟩)

/-- simulator.py lines 144-146: `if seed is not None: random.seed(seed)`.
With `none` the incoming global stream state is used unseeded. -/
def initialRng (seed : Option Int) (g : RandomState) : RandomState :=
  match seed with
  | some sd => seedState sd
  | none => g

/-! ### Discrete-event core (`Clinic.generator`, `Clinic.patient_process`,
`env.run(until=hours)`)

The simpy kernel processes pending events in time order.  The events of
this program are exactly: the arrival generator waking (one pending wake at
any time), and service completions (one pending wake per patient holding a
staff slot).  Patients waiting for a slot sit in the FIFO queue of the
`simpy.Resource`; a release grants the slot to the head waiter at the same
simulated time.  `env.run(until=hours)` executes every pending event whose
time is strictly below the horizon and abandons the rest.  Ties between a
completion and an arrival at the same instant are resolved here in favour
of the completion; the concrete runs used below have no such ties, and the
invariants proved below do not depend on the tie order. -/

/-- Full state of one run of the event loop.  `inService` holds the
completion times of the patients currently holding a staff slot, `queue`
the arrival times of the patients waiting for one (FIFO).  `wait_times`,
`service_times` and `patients_served` are the fields of the
`SimulationResults` container that `Clinic.patient_process` mutates. -/
structure SimState where
  now : ℚ
  rng : RandomState
  nextArrival : ℚ
  inService : List ℚ
  queue : List ℚ
  wait_times : List ℚ
  service_times : List ℚ
  patients_served : Nat
  events : Nat
deriving DecidableEq, Repr

/-- State at time 0, after the generator has drawn its first inter-arrival
gap (`Clinic.generator` lines 103-105): `r` is the generator state after
that draw and `g0` the time of the first arrival. -/
def initState (r : RandomState) (g0 : ℚ) : SimState :=
  ⟨0, r, g0, [], [], [], [], 0, 0⟩

/-- The arrival event at time `st.nextArrival` (`Clinic.generator` lines
103-107 and `Clinic.patient_process` lines 76-93).  The generator first
draws the next inter-arrival gap, then the new patient requests a staff
slot: with a free slot it starts service immediately (wait 0 is appended to
`wait_times`, a service duration is drawn and appended to `service_times`,
and its completion is scheduled); otherwise it joins the FIFO queue.
Note both observation lists are appended at service START (lines 86 and
91), before the service delay `yield env.timeout(service_time)`. -/
def arrivalStep (arrival_rate service_rate : ℚ) (capacity : Nat) (st : SimState) : SimState :=
  let t := st.nextArrival
  let gd := expoDraw arrival_rate st.rng
  if st.inService.length < capacity then
    let sd := expoDraw service_rate gd.2
    { now := t, rng := sd.2, nextArrival := t + gd.1,
      inService := st.inService ++ [t + sd.1],
      queue := st.queue,
      wait_times := st.wait_times ++ [0],
      service_times := st.service_times ++ [sd.1],
      patients_served := st.patients_served,
      events := st.events + 1 }
  else
    { st with
      now := t
      rng := gd.2
      nextArrival := t + gd.1
      queue := st.queue ++ [t]
      events := st.events + 1 }

/-- The completion event at time `tc` (the earliest entry of `inService`):
`Clinic.patient_process` lines 95-96 plus the implicit release at the end
of the `with self.staff.request()` block.  The finishing patient is counted
in `patients_served` and its slot is released; if the FIFO queue is
nonempty its head starts service at the same instant (its wait is recorded,
a service duration is drawn and recorded, and its completion scheduled). -/
def completionStep (service_rate : ℚ) (tc : ℚ) (st : SimState) : SimState :=
  let rest := st.inService.erase tc
  match st.queue with
  | [] =>
    { st with
      now := tc
      inService := rest
      patients_served := st.patients_served + 1
      events := st.events + 1 }
  | arr :: qrest =>
    let sd := expoDraw service_rate st.rng
    { now := tc, rng := sd.2, nextArrival := st.nextArrival,
      inService := rest ++ [tc + sd.1],
      queue := qrest,
      wait_times := st.wait_times ++ [tc - arr],
      service_times := st.service_times ++ [sd.1],
      patients_served := st.patients_served + 1,
      events := st.events + 1 }

/-- Execute the next pending event (the one with the earliest wake time). -/
def stepOnce (arrival_rate service_rate : ℚ) (capacity : Nat) (st : SimState) : SimState :=
  match st.inService.min? with
  | some tc =>
    if tc ≤ st.nextArrival then completionStep service_rate tc st
    else arrivalStep arrival_rate service_rate capacity st
  | none => arrivalStep arrival_rate service_rate capacity st

/-- Wake time of the next pending event. -/
def nextEventTime (st : SimState) : ℚ :=
  match st.inService.min? with
  | some tc => min tc st.nextArrival
  | none => st.nextArrival

/-- One iteration of `env.run(until=hours)` (simulator.py line 158): events
strictly before the horizon are executed; once the next pending event is at
or past the horizon the state is frozen (processes still suspended are
abandoned). -/
def stepGated (arrival_rate service_rate : ℚ) (capacity : Nat) (horizon : ℚ)
    (st : SimState) : SimState :=
  if nextEventTime st < horizon then stepOnce arrival_rate service_rate capacity st else st

/-- The event loop, with explicit fuel bounding the number of processed
events (each run below is supplied fuel exceeding its event count, so the
extra iterations are the identity). -/
def simLoop (arrival_rate service_rate : ℚ) (capacity : Nat) (horizon : ℚ)
    (fuel : Nat) (st : SimState) : SimState :=
  (stepGated arrival_rate service_rate capacity horizon)^[fuel] st

/-! ### Metrics and bottleneck analysis (`calculate_results`, lines 182-339) -/

/-- Python `int(q)`: truncation toward zero. -/
def pyInt (q : ℚ) : Int := if 0 ≤ q then ⌊q⌋ else ⌈q⌉

/-- Python `max(l)` under the code's `if l else 0` guard. -/
def pyMax : List ℚ → ℚ
  | [] => 0
  | x :: xs => xs.foldl max x

/-- Python `min(l)` under the code's `if l else 0` guard. -/
def pyMin : List ℚ → ℚ
  | [] => 0
  | x :: xs => xs.foldl min x

/-- The advisory strings appended to `recommendations`, abstracted to tags:
each constructor stands for one distinct `recommendations.append`/`extend`
entry of `calculate_results` (lines 251-317), carrying the computed staff
counts where the text interpolates them.  The claims checked below concern
which entries are appended, not their formatted text. -/
inductive Rec where
  | rhoCritical
  | unstableCritical
  | urgentAddStaff (gap : Int)
  | targetStaffing (required : Int)
  | utilHigh
  | trafficHigh
  | avgWaitHigh
  | addStaffHigh (n : Int)
  | peakQueueHigh
  | cvConsistencyHigh
  | utilModerate
  | trafficModerate
  | avgWaitModerate
  | stableLimitedModerate
  | monitorPeakModerate
  | elevatedWaitModerate
  | utilHealthy
  | trafficHealthy
  | avgWaitHealthy
  | adequateCapacityHealthy
  | reduceStaffHealthy (n : Int)
  | highVarianceFlag
  | highVarianceDetail
  | largeQueueFlag
deriving DecidableEq, Repr

/-- The severity tier (`bottleneck_level`, lines 239-296): first matching
guard wins.  "Healthy" is stored as the string "none" by the code. -/
def bottleneck_level_of (ti util : ℚ) : String :=
  if 1 ≤ ti then "critical"
  else if 9/10 < util then "high"
  else if 3/4 < util then "moderate"
  else "none"

/-- `results.system_status` for each tier (lines 245, 261, 281, 297). -/
def system_status_of (ti util : ℚ) : String :=
  if 1 ≤ ti then "🔴 CRITICAL: System Unstable (ρ ≥ 1.0)"
  else if 9/10 < util then "🟠 WARNING: High Utilization Detected"
  else if 3/4 < util then "🟡 CAUTION: Moderate Load"
  else "🟢 HEALTHY: Optimal Performance"

/-- The tier-specific recommendations (lines 243-309).  In the critical
tier `required_servers = int(arr_rate / service_rate_per_server) + 1`; in
the high tier `optimal_servers = max(servers + 1, int(servers * util /
0.85) + 1)`; in the healthy tier the low-utilization note computes
`max(1, int(servers * util / 0.65))`.  `cv_sq` is the square of the
wait-time coefficient of variation (see `calculate_results`); since the
coefficient is a nonnegative real, the code's guard `cv_wait > 1.5` is
exactly `cv_sq > 9/4`. -/
def tier_recs (arr_rate : ℚ) (servers : Int) (ti util avg_wait cv_sq srps : ℚ) : List Rec :=
  if 1 ≤ ti then
    let required_servers := pyInt (arr_rate / srps) + 1
    [Rec.rhoCritical, Rec.unstableCritical,
     Rec.urgentAddStaff (required_servers - servers), Rec.targetStaffing required_servers]
  else if 9/10 < util then
    let optimal_servers := max (servers + 1) (pyInt ((servers : ℚ) * util / (17/20)) + 1)
    [Rec.utilHigh, Rec.trafficHigh, Rec.avgWaitHigh,
     Rec.addStaffHigh (optimal_servers - servers), Rec.peakQueueHigh]
      ++ (if 9/4 < cv_sq then [Rec.cvConsistencyHigh] else [])
  else if 3/4 < util then
    [Rec.utilModerate, Rec.trafficModerate, Rec.avgWaitModerate,
     Rec.stableLimitedModerate, Rec.monitorPeakModerate]
      ++ (if 1/4 < avg_wait then [Rec.elevatedWaitModerate] else [])
  else
    [Rec.utilHealthy, Rec.trafficHealthy, Rec.avgWaitHealthy, Rec.adequateCapacityHealthy]
      ++ (if util < 1/2 then
            [Rec.reduceStaffHealthy (max 1 (pyInt ((servers : ℚ) * util / (13/20))))]
          else [])

/-- The supplementary quality indicators (lines 312-317), appended after
the tier block regardless of which tier was selected. -/
def supplementary_recs (avg_wait max_wait avg_queue : ℚ) : List Rec :=
  (if avg_wait * 3 < max_wait ∧ 0 < avg_wait then
      [Rec.highVarianceFlag, Rec.highVarianceDetail]
    else [])
    ++ (if 5 < avg_queue then [Rec.largeQueueFlag] else [])

/-- All values computed and stored by `calculate_results`. -/
structure CalcOut where
  avg_wait_time : ℚ
  avg_queue_length : ℚ
  utilization : ℚ
  max_wait_time : ℚ
  min_wait_time : ℚ
  service_rate_per_server : ℚ
  traffic_intensity : ℚ
  cv_wait_sq : ℚ
  bottleneck_level : String
  system_status : String
  recommendations : List Rec
deriving DecidableEq, Repr

/-- `calculate_results` (simulator.py lines 182-339) as a pure function of
the observation lists and parameters.  Guards mirror the source exactly:
`avg_wait` and `avg_service_time` guard on list nonemptiness, `util` on
`available` being truthy (nonzero), `traffic_intensity` on
`service_rate_per_server > 0`, and the coefficient of variation on
`len(wait_times) > 1` and `avg_wait > 0`.  Because ℚ has no square root,
the coefficient of variation `std/avg` is represented by its square
`variance/avg²` (`cv_wait_sq`); all uses in the source — the threshold
comparison with 1.5 and the zero case — are preserved exactly since
squaring is strictly monotone on nonnegative reals.  For `servers = 0` with
nonempty observations the Python source divides by zero and crashes; the
theorems below therefore restrict to positive server counts (except for
empty observations, where the source's guards avoid every division). -/
def calculate_results (wait_times service_times : List ℚ) (arr_rate : ℚ)
    (servers : Int) (hours : ℚ) : CalcOut :=
  let avg_wait := if wait_times = [] then 0 else wait_times.sum / (wait_times.length : ℚ)
  let avg_queue := arr_rate * avg_wait
  let busy := service_times.sum
  let available := (servers : ℚ) * hours
  let util := if available ≠ 0 then busy / available else 0
  let max_wait := pyMax wait_times
  let min_wait := pyMin wait_times
  let avg_service_time :=
    if service_times = [] then 0 else service_times.sum / (service_times.length : ℚ)
  let srps := if 0 < avg_service_time then 1 / avg_service_time else 0
  let ti := if 0 < srps then arr_rate / (srps * (servers : ℚ)) else 0
  let cv_sq :=
    if 1 < wait_times.length then
      let wvar := ((wait_times.map (fun w => (w - avg_wait) ^ 2)).sum) / (wait_times.length : ℚ)
      if 0 < avg_wait then wvar / avg_wait ^ 2 else 0
    else 0
  { avg_wait_time := avg_wait, avg_queue_length := avg_queue, utilization := util,
    max_wait_time := max_wait, min_wait_time := min_wait,
    service_rate_per_server := srps, traffic_intensity := ti, cv_wait_sq := cv_sq,
    bottleneck_level := bottleneck_level_of ti util,
    system_status := system_status_of ti util,
    recommendations :=
      tier_recs arr_rate servers ti util avg_wait cv_sq srps
        ++ supplementary_recs avg_wait max_wait avg_queue }

/-! ### The entry point `run_simulation` (simulator.py lines 110-179)

The source performs no parameter validation of its own: it builds the
`SimulationResults` container and its `parameters` record, seeds the
generator, constructs the `simpy.Resource` (whose own constructor — an
external library check — rejects a nonpositive capacity with a
`ValueError`), then calls `env.run(until=hours)` (which rejects a horizon
at or below the current time 0, also with a `ValueError`), runs the event
loop, and finally calls `calculate_results`, which both computes the
returned metrics and extends the `parameters` record with derived analysis
entries (lines 332-339). -/

/-- The five entries placed in `results.parameters` at lines 136-142. -/
structure CoreParams where
  arrival_rate : ℚ
  service_rate : ℚ
  servers : Int
  hours : ℚ
  seed : Option Int
deriving DecidableEq, Repr

/-- The six entries `calculate_results` adds to `results.parameters` at
lines 332-339. -/
structure DerivedParams where
  bottleneck_level : String
  recommendations : List Rec
  max_wait_time : ℚ
  traffic_intensity : ℚ
  service_rate_per_server : ℚ
  coefficient_of_variation_sq : ℚ
deriving DecidableEq, Repr

/-- The `results.parameters` dictionary: the five entries written at
construction plus, after `calculate_results` has run, the derived block. -/
structure ParamsDict where
  base : CoreParams
  derived : Option DerivedParams
deriving DecidableEq, Repr

/-- The raw observation fields of the `SimulationResults` container. -/
structure ResultsData where
  wait_times : List ℚ
  service_times : List ℚ
  patients_served : Nat
deriving DecidableEq, Repr

/-- The dictionary returned by `run_simulation` (lines 173-179). -/
structure RunResult where
  avg_wait_time : ℚ
  avg_queue_length : ℚ
  utilization : ℚ
  patients_served : Nat
  system_status : String
deriving DecidableEq, Repr

/-- Failure modes of a run.  `valueError` models the Python `ValueError`s
actually reachable (from the resource constructor and from
`env.run`); `invalidParameter` represents the `InvalidParameterError` the
specification describes — the source defines no such error and no code
path below ever produces this constructor. -/
inductive SimError where
  | invalidParameter
  | valueError (msg : String)
deriving DecidableEq, Repr

instance {ε α : Type} [DecidableEq ε] [DecidableEq α] : DecidableEq (Except ε α)
  | Except.ok a, Except.ok b =>
      if h : a = b then isTrue (by rw [h]) else isFalse (fun hh => h (Except.ok.inj hh))
  | Except.error a, Except.error b =>
      if h : a = b then isTrue (by rw [h]) else isFalse (fun hh => h (Except.error.inj hh))
  | Except.ok _, Except.error _ => isFalse (fun hh => Except.noConfusion hh)
  | Except.error _, Except.ok _ => isFalse (fun hh => Except.noConfusion hh)

/-- Everything observable about one call to `run_simulation`: its outcome,
the state of the `SimulationResults` container (which exists, with its
`parameters` record populated, even when the call fails), and the number
of events the kernel executed. -/
structure RunAttempt where
  outcome : Except SimError RunResult
  resultsState : ResultsData
  finalParams : ParamsDict
  eventsExecuted : Nat
deriving DecidableEq

/-- `run_simulation` (simulator.py lines 110-179).  `g` is the state of the
global random stream when the call starts and `fuel` bounds the event
count.  The steps follow the source order: results container and parameter
record first (lines 135-142), seeding (145-146), resource construction
with the library's capacity check (150), `env.run` with its horizon check
and the event loop (158), then `calculate_results` (167), which fills the
derived parameter block. -/
def run_simulation (arrival_rate service_rate : ℚ) (servers : Int) (hours : ℚ)
    (seed : Option Int) (g : RandomState) (fuel : Nat) : RunAttempt :=
  let params0 : ParamsDict := ⟨⟨arrival_rate, service_rate, servers, hours, seed⟩, none⟩
  let rng0 := initialRng seed g
  if servers ≤ 0 then
    { outcome := Except.error (SimError.valueError "capacity must be greater than 0")
      resultsState := ⟨[], [], 0⟩
      finalParams := params0
      eventsExecuted := 0 }
  else if hours ≤ 0 then
    { outcome := Except.error
        (SimError.valueError "until must be greater than the current simulation time")
      resultsState := ⟨[], [], 0⟩
      finalParams := params0
      eventsExecuted := 0 }
  else
    let gd := expoDraw arrival_rate rng0
    let stF := simLoop arrival_rate service_rate servers.toNat hours fuel (initState gd.2 gd.1)
    let co := calculate_results stF.wait_times stF.service_times arrival_rate servers hours
    { outcome := Except.ok
        ⟨co.avg_wait_time, co.avg_queue_length, co.utilization,
         stF.patients_served, co.system_status⟩
      resultsState := ⟨stF.wait_times, stF.service_times, stF.patients_served⟩
      finalParams :=
        ⟨params0.base,
         some ⟨co.bottleneck_level, co.recommendations, co.max_wait_time,
               co.traffic_intensity, co.service_rate_per_server, co.cv_wait_sq⟩⟩
      eventsExecuted := stF.events }

/-- A call to `run_simulation` that omits the seed argument: the Python
signature declares `seed: Optional[int] = 42` (line 115), so omission
supplies the concrete seed 42. -/
def run_simulation_noseed (arrival_rate service_rate : ℚ) (servers : Int) (hours : ℚ)
    (g : RandomState) (fuel : Nat) : RunAttempt :=
  run_simulation arrival_rate service_rate servers hours (some 42) g fuel

/-- `patients_served` of the returned dictionary (0 if the call failed). -/
def RunAttempt.patientsServed (r : RunAttempt) : Nat :=
  match r.outcome with
  | Except.ok res => res.patients_served
  | Except.error _ => 0

/-- `avg_wait_time` of the returned dictionary (0 if the call failed). -/
def RunAttempt.avgWaitTime (r : RunAttempt) : ℚ :=
  match r.outcome with
  | Except.ok res => res.avg_wait_time
  | Except.error _ => 0

/-- `utilization` of the returned dictionary (0 if the call failed). -/
def RunAttempt.utilizationVal (r : RunAttempt) : ℚ :=
  match r.outcome with
  | Except.ok res => res.utilization
  | Except.error _ => 0

/-- api.py lines 91-92: the web layer's up-front check — `True` when the
request is rejected with a 400 response ("All parameters must be
positive") before `run_simulation` is invoked. -/
def simulate_rejects (arrival_rate service_rate : ℚ) (servers : Int) (hours : ℚ) : Bool :=
  decide (arrival_rate ≤ 0) || decide (service_rate ≤ 0) ||
    decide (servers ≤ 0) || decide (hours ≤ 0)

/-! ### Helper lemmas -/

lemma mem_of_min?_eq_some {l : List ℚ} {a : ℚ} (h : l.min? = some a) : a ∈ l :=
  List.min?_mem (fun x y => min_choice x y) h

/-- Accounting invariant of one event: every entry of the observation lists
belongs to a patient who has either completed or is currently in service. -/
lemma counts_stepOnce (a s : ℚ) (c : Nat) (st : SimState)
    (hw : st.wait_times.length = st.patients_served + st.inService.length)
    (hs : st.service_times.length = st.patients_served + st.inService.length) :
    (stepOnce a s c st).wait_times.length
        = (stepOnce a s c st).patients_served + (stepOnce a s c st).inService.length
    ∧ (stepOnce a s c st).service_times.length
        = (stepOnce a s c st).patients_served + (stepOnce a s c st).inService.length := by
  unfold stepOnce
  cases hmin : st.inService.min? with
  | none =>
    unfold arrivalStep
    by_cases hc : st.inService.length < c <;> simp [hc, hw, hs] <;> omega
  | some tc =>
    by_cases hle : tc ≤ st.nextArrival
    · have hmem : tc ∈ st.inService := mem_of_min?_eq_some hmin
      have hlen : (st.inService.erase tc).length + 1 = st.inService.length :=
        List.length_erase_add_one hmem
      simp only [hle, if_true]
      unfold completionStep
      cases hq : st.queue with
      | nil => simp [hw, hs]; omega
      | cons arr rest => simp [hw, hs]; omega
    · simp only [hle, if_false]
      unfold arrivalStep
      by_cases hc : st.inService.length < c <;> simp [hc, hw, hs] <;> omega

lemma counts_stepGated (a s : ℚ) (c : Nat) (H : ℚ) (st : SimState)
    (hw : st.wait_times.length = st.patients_served + st.inService.length)
    (hs : st.service_times.length = st.patients_served + st.inService.length) :
    (stepGated a s c H st).wait_times.length
        = (stepGated a s c H st).patients_served + (stepGated a s c H st).inService.length
    ∧ (stepGated a s c H st).service_times.length
        = (stepGated a s c H st).patients_served + (stepGated a s c H st).inService.length := by
  unfold stepGated
  split_ifs with hgate
  · exact counts_stepOnce a s c st hw hs
  · exact ⟨hw, hs⟩

/-- Capacity invariant of one event: processing an event never pushes the
number of held slots above the capacity. -/
lemma capacity_stepOnce (a s : ℚ) (c : Nat) (st : SimState)
    (h : st.inService.length ≤ c) : (stepOnce a s c st).inService.length ≤ c := by
  unfold stepOnce
  cases hmin : st.inService.min? with
  | none =>
    unfold arrivalStep
    by_cases hc : st.inService.length < c <;> simp [hc] <;> omega
  | some tc =>
    by_cases hle : tc ≤ st.nextArrival
    · have hmem : tc ∈ st.inService := mem_of_min?_eq_some hmin
      have hlen : (st.inService.erase tc).length + 1 = st.inService.length :=
        List.length_erase_add_one hmem
      simp only [hle, if_true]
      unfold completionStep
      cases hq : st.queue with
      | nil => simp; omega
      | cons arr rest => simp; omega
    · simp only [hle, if_false]
      unfold arrivalStep
      by_cases hc : st.inService.length < c <;> simp [hc] <;> omega

lemma capacity_stepGated (a s : ℚ) (c : Nat) (H : ℚ) (st : SimState)
    (h : st.inService.length ≤ c) : (stepGated a s c H st).inService.length ≤ c := by
  unfold stepGated
  split_ifs with hgate
  · exact capacity_stepOnce a s c st h
  · exact h

/-- First-match-wins characterisation of the severity tiers. -/
lemma bottleneck_level_of_iff (ti util : ℚ) :
    (bottleneck_level_of ti util = "critical" ↔ 1 ≤ ti)
    ∧ (bottleneck_level_of ti util = "high" ↔ ti < 1 ∧ 9/10 < util)
    ∧ (bottleneck_level_of ti util = "moderate" ↔ ti < 1 ∧ util ≤ 9/10 ∧ 3/4 < util)
    ∧ (bottleneck_level_of ti util = "none" ↔ ti < 1 ∧ util ≤ 3/4) := by
  unfold bottleneck_level_of
  split_ifs with h1 h2 h3 <;>
    refine ⟨?_, ?_, ?_, ?_⟩ <;>
      simp_all <;>
        linarith

/-- The supplementary high-variance flag is appended exactly under the
source's guard `max_wait > avg_wait * 3 and avg_wait > 0`. -/
lemma highVarianceFlag_mem_supplementary (aw mw aq : ℚ) :
    Rec.highVarianceFlag ∈ supplementary_recs aw mw aq ↔ aw * 3 < mw ∧ 0 < aw := by
  unfold supplementary_recs
  split_ifs <;> simp_all

/-- The supplementary large-queue flag is appended exactly under the
source's guard `avg_queue > 5`. -/
lemma largeQueueFlag_mem_supplementary (aw mw aq : ℚ) :
    Rec.largeQueueFlag ∈ supplementary_recs aw mw aq ↔ 5 < aq := by
  unfold supplementary_recs
  split_ifs <;> simp_all

/-- No tier block appends either supplementary flag. -/
lemma flags_not_mem_tier (a : ℚ) (c : Int) (ti util aw cv srps : ℚ) :
    Rec.highVarianceFlag ∉ tier_recs a c ti util aw cv srps
    ∧ Rec.largeQueueFlag ∉ tier_recs a c ti util aw cv srps := by
  unfold tier_recs
  split_ifs <;> simp

/-- Two seeded calls are byte-for-byte the same function of the parameters
and the seed: `random.seed(seed)` discards the incoming global stream
state. -/
lemma run_simulation_seeded_const (a s : ℚ) (c : Int) (h : ℚ) (sd : Int)
    (g1 g2 : RandomState) (fuel : Nat) :
    run_simulation a s c h (some sd) g1 fuel = run_simulation a s c h (some sd) g2 fuel := rfl

/-! ### Claim C3 — Little's Law as a structural identity -/

/-- C3: For every completed run, the reported `avg_queue_length` equals
`arrival_rate × avg_wait_time` (Little's Law) exactly as a structural
identity of the computation (simulator.py line 189 computes it as that
very product), hence within 1e-9 relative tolerance for any run with at
least one served entity.  Stated for positive server counts, where the
Python computation completes. -/
theorem C3_littles_law_identity (w sv : List ℚ) (a : ℚ) (c : Int) (h : ℚ) (hc : 0 < c) :
    (calculate_results w sv a c h).avg_queue_length
        = a * (calculate_results w sv a c h).avg_wait_time
    ∧ |(calculate_results w sv a c h).avg_queue_length
          - a * (calculate_results w sv a c h).avg_wait_time|
        ≤ 1 / 1000000000 * |(calculate_results w sv a c h).avg_queue_length| := by
  refine ⟨rfl, ?_⟩
  rw [show a * (calculate_results w sv a c h).avg_wait_time
      = (calculate_results w sv a c h).avg_queue_length from rfl]
  rw [sub_self, abs_zero]
  positivity

/-- Witness for C3 at a concrete run with one served entity. -/
theorem C3_littles_law_identity_witness :
    (0 : Int) < 2
    ∧ ((calculate_results [1/2] [1/3] 5 2 4).avg_queue_length
          = 5 * (calculate_results [1/2] [1/3] 5 2 4).avg_wait_time
       ∧ |(calculate_results [1/2] [1/3] 5 2 4).avg_queue_length
             - 5 * (calculate_results [1/2] [1/3] 5 2 4).avg_wait_time|
           ≤ 1 / 1000000000 * |(calculate_results [1/2] [1/3] 5 2 4).avg_queue_length|) :=
  ⟨by decide, C3_littles_law_identity [1/2] [1/3] 5 2 4 (by decide)⟩

/-! ### Claim C4 — tier priority and supplementary flags -/

/-- C4: The analyzer assigns the severity tier by evaluating guards in
strict priority order with first match winning: Critical iff
`traffic_intensity ≥ 1.0`; else High iff `utilization > 0.90`; else
Moderate iff `utilization > 0.75`; else Healthy (the code stores the
Healthy tier as the string "none") — and the supplementary flags
(`max_wait_time > 3 × avg_wait_time` with `avg_wait_time > 0`, and
`avg_queue_length > 5`) are appended to the recommendations regardless of
which tier was selected. -/
theorem C4_tier_priority_and_flags (w sv : List ℚ) (a : ℚ) (c : Int) (h : ℚ)
    (hc : 0 < c) :
    ((calculate_results w sv a c h).bottleneck_level = "critical"
        ↔ 1 ≤ (calculate_results w sv a c h).traffic_intensity)
    ∧ ((calculate_results w sv a c h).bottleneck_level = "high"
        ↔ (calculate_results w sv a c h).traffic_intensity < 1
          ∧ 9/10 < (calculate_results w sv a c h).utilization)
    ∧ ((calculate_results w sv a c h).bottleneck_level = "moderate"
        ↔ (calculate_results w sv a c h).traffic_intensity < 1
          ∧ (calculate_results w sv a c h).utilization ≤ 9/10
          ∧ 3/4 < (calculate_results w sv a c h).utilization)
    ∧ ((calculate_results w sv a c h).bottleneck_level = "none"
        ↔ (calculate_results w sv a c h).traffic_intensity < 1
          ∧ (calculate_results w sv a c h).utilization ≤ 3/4)
    ∧ (Rec.highVarianceFlag ∈ (calculate_results w sv a c h).recommendations
        ↔ (calculate_results w sv a c h).avg_wait_time * 3
              < (calculate_results w sv a c h).max_wait_time
          ∧ 0 < (calculate_results w sv a c h).avg_wait_time)
    ∧ (Rec.largeQueueFlag ∈ (calculate_results w sv a c h).recommendations
        ↔ 5 < (calculate_results w sv a c h).avg_queue_length) := by
  have hlev : (calculate_results w sv a c h).bottleneck_level
      = bottleneck_level_of (calculate_results w sv a c h).traffic_intensity
          (calculate_results w sv a c h).utilization := rfl
  have hrec : (calculate_results w sv a c h).recommendations
      = tier_recs a c (calculate_results w sv a c h).traffic_intensity
          (calculate_results w sv a c h).utilization
          (calculate_results w sv a c h).avg_wait_time
          (calculate_results w sv a c h).cv_wait_sq
          (calculate_results w sv a c h).service_rate_per_server
        ++ supplementary_recs (calculate_results w sv a c h).avg_wait_time
            (calculate_results w sv a c h).max_wait_time
            (calculate_results w sv a c h).avg_queue_length := rfl
  obtain ⟨i1, i2, i3, i4⟩ :=
    bottleneck_level_of_iff (calculate_results w sv a c h).traffic_intensity
      (calculate_results w sv a c h).utilization
  obtain ⟨nf1, nf2⟩ :=
    flags_not_mem_tier a c (calculate_results w sv a c h).traffic_intensity
      (calculate_results w sv a c h).utilization
      (calculate_results w sv a c h).avg_wait_time
      (calculate_results w sv a c h).cv_wait_sq
      (calculate_results w sv a c h).service_rate_per_server
  refine ⟨?_, ?_, ?_, ?_, ?_, ?_⟩
  · rw [hlev]; exact i1
  · rw [hlev]; exact i2
  · rw [hlev]; exact i3
  · rw [hlev]; exact i4
  · rw [hrec]
    rw [List.mem_append]
    constructor
    · rintro (hmem | hmem)
      · exact absurd hmem nf1
      · exact (highVarianceFlag_mem_supplementary _ _ _).mp hmem
    · intro hx
      exact Or.inr ((highVarianceFlag_mem_supplementary _ _ _).mpr hx)
  · rw [hrec]
    rw [List.mem_append]
    constructor
    · rintro (hmem | hmem)
      · exact absurd hmem nf2
      · exact (largeQueueFlag_mem_supplementary _ _ _).mp hmem
    · intro hx
      exact Or.inr ((largeQueueFlag_mem_supplementary _ _ _).mpr hx)

/-- Witness for C4 at a concrete run (empty observations, Healthy tier). -/
theorem C4_tier_priority_and_flags_witness :
    (0 : Int) < 3
    ∧ (((calculate_results [] [] 1 3 1).bottleneck_level = "critical"
          ↔ 1 ≤ (calculate_results [] [] 1 3 1).traffic_intensity)
      ∧ ((calculate_results [] [] 1 3 1).bottleneck_level = "high"
          ↔ (calculate_results [] [] 1 3 1).traffic_intensity < 1
            ∧ 9/10 < (calculate_results [] [] 1 3 1).utilization)
      ∧ ((calculate_results [] [] 1 3 1).bottleneck_level = "moderate"
          ↔ (calculate_results [] [] 1 3 1).traffic_intensity < 1
            ∧ (calculate_results [] [] 1 3 1).utilization ≤ 9/10
            ∧ 3/4 < (calculate_results [] [] 1 3 1).utilization)
      ∧ ((calculate_results [] [] 1 3 1).bottleneck_level = "none"
          ↔ (calculate_results [] [] 1 3 1).traffic_intensity < 1
            ∧ (calculate_results [] [] 1 3 1).utilization ≤ 3/4)
      ∧ (Rec.highVarianceFlag ∈ (calculate_results [] [] 1 3 1).recommendations
          ↔ (calculate_results [] [] 1 3 1).avg_wait_time * 3
                < (calculate_results [] [] 1 3 1).max_wait_time
            ∧ 0 < (calculate_results [] [] 1 3 1).avg_wait_time)
      ∧ (Rec.largeQueueFlag ∈ (calculate_results [] [] 1 3 1).recommendations
          ↔ 5 < (calculate_results [] [] 1 3 1).avg_queue_length)) :=
  ⟨by decide, C4_tier_priority_and_flags [] [] 1 3 1 (by decide)⟩

/-! ### Claim C10 — empty observation sequences -/

/-- C10: For every run in which the observation sequences are empty,
metrics calculation completes without error — in the source every division
is syntactically guarded (empty-list guards for the averages, the
truthiness guard on `available`, the `service_rate_per_server > 0` guard
for traffic intensity, the `len > 1` and `avg_wait > 0` guards for the
coefficient of variation), and with empty observations no division is
reached at all — and yields `avg_wait_time = 0`, `avg_queue_length = 0`,
`utilization = 0`, `traffic_intensity = 0`, coefficient of variation `= 0`
(represented by its square), `max_wait_time = 0`, with the Healthy tier
selected ("none" / the healthy status string).  The embedding is a total
function, so completion is by construction; this theorem checks the
computed values. -/
theorem C10_empty_observations (a : ℚ) (c : Int) (h : ℚ) :
    (calculate_results [] [] a c h).avg_wait_time = 0
    ∧ (calculate_results [] [] a c h).avg_queue_length = 0
    ∧ (calculate_results [] [] a c h).utilization = 0
    ∧ (calculate_results [] [] a c h).traffic_intensity = 0
    ∧ (calculate_results [] [] a c h).cv_wait_sq = 0
    ∧ (calculate_results [] [] a c h).max_wait_time = 0
    ∧ (calculate_results [] [] a c h).bottleneck_level = "none"
    ∧ (calculate_results [] [] a c h).system_status
        = "🟢 HEALTHY: Optimal Performance" := by
  have havg : (calculate_results [] [] a c h).avg_wait_time = 0 := rfl
  have hq : (calculate_results [] [] a c h).avg_queue_length = 0 := mul_zero a
  have hutil : (calculate_results [] [] a c h).utilization = 0 := by
    rw [show (calculate_results [] [] a c h).utilization
        = if ((c : ℚ) * h) ≠ 0 then (0 : ℚ) / ((c : ℚ) * h) else 0 from rfl]
    split_ifs <;> simp
  have hti : (calculate_results [] [] a c h).traffic_intensity = 0 := rfl
  have hlev : (calculate_results [] [] a c h).bottleneck_level
      = bottleneck_level_of (calculate_results [] [] a c h).traffic_intensity
          (calculate_results [] [] a c h).utilization := rfl
  have hstat : (calculate_results [] [] a c h).system_status
      = system_status_of (calculate_results [] [] a c h).traffic_intensity
          (calculate_results [] [] a c h).utilization := rfl
  refine ⟨havg, hq, hutil, hti, rfl, rfl, ?_, ?_⟩
  · rw [hlev, hti, hutil]; with_unfolding_all decide
  · rw [hstat, hti, hutil]; with_unfolding_all decide

/-! ### Claim C8 — server capacity invariant -/

/-- C8: At every instant of simulated time during a run (i.e. after every
number `n` of processed events of the gated event loop), the number of
entities concurrently holding a server slot (the `inService` list) never
exceeds the fixed capacity of the server pool. -/
theorem C8_capacity_invariant (a s : ℚ) (c : Nat) (H : ℚ) (r : RandomState)
    (g0 : ℚ) (n : Nat) :
    (simLoop a s c H n (initState r g0)).inService.length ≤ c := by
  induction n with
  | zero => simp [simLoop, initState]
  | succ k ih =>
    simp only [simLoop] at ih ⊢
    rw [Function.iterate_succ_apply']
    exact capacity_stepGated a s c H _ ih

/-! ### Claim C1 — contents of the observation sequences -/

/-- C1 (counterexample): with `arrival_rate = 1`,
`service_rate = 1/1000000`, one server and horizon `530001/2000000`, the
single patient arrives at time `53/200`, starts service immediately, and
is still in service at the horizon: both observation lists already hold
its entries (length 1) while `patients_served = 0`, and its full sampled
service time makes the reported utilization nonzero.  This refutes "one
entry per completed entity" and "any entity still in service when the
horizon is reached is excluded from the final metrics". -/
theorem C1_counterexample :
    (run_simulation 1 (1/1000000) 1 (530001/2000000) (some 42) ⟨0⟩ 5).resultsState.wait_times.length = 1
    ∧ (run_simulation 1 (1/1000000) 1 (530001/2000000) (some 42) ⟨0⟩ 5).resultsState.service_times.length = 1
    ∧ (run_simulation 1 (1/1000000) 1 (530001/2000000) (some 42) ⟨0⟩ 5).resultsState.patients_served = 0
    ∧ (run_simulation 1 (1/1000000) 1 (530001/2000000) (some 42) ⟨0⟩ 5).utilizationVal ≠ 0 := by
  with_unfolding_all decide

/-- C1 (amended): `wait_times` and `service_times` receive exactly one
entry per entity that has begun service, appended at service start in
service-start order: at every instant, the length of each observation list
equals `patients_served` plus the number of entities currently in service.
Entities still waiting for a server at the horizon are excluded, but an
entity still in service at the horizon has already contributed its wait
and its full sampled service duration to the final metrics. -/
theorem C1_amended_observation_accounting (a s : ℚ) (c : Nat) (H : ℚ)
    (r : RandomState) (g0 : ℚ) (n : Nat) :
    (simLoop a s c H n (initState r g0)).wait_times.length
        = (simLoop a s c H n (initState r g0)).patients_served
          + (simLoop a s c H n (initState r g0)).inService.length
    ∧ (simLoop a s c H n (initState r g0)).service_times.length
        = (simLoop a s c H n (initState r g0)).patients_served
          + (simLoop a s c H n (initState r g0)).inService.length := by
  induction n with
  | zero => simp [simLoop, initState]
  | succ k ih =>
    simp only [simLoop] at ih ⊢
    rw [Function.iterate_succ_apply']
    exact counts_stepGated a s c H _ ih.1 ih.2

/-! ### Claim C2 — parameter validation -/

/-- C2 (counterexample): calling the core entry point with
`server_count = 0` does not fail with the specification's
`InvalidParameterError` — it fails with the resource library's
`ValueError` — and it does leave partial state behind: the results
container already carries the parameters record. -/
theorem C2_counterexample :
    (run_simulation 10 4 0 10 (some 42) ⟨0⟩ 10).outcome
        ≠ Except.error SimError.invalidParameter
    ∧ (run_simulation 10 4 0 10 (some 42) ⟨0⟩ 10).finalParams.base
        = ⟨10, 4, 0, 10, some 42⟩ := by
  with_unfolding_all decide

/-- C2 (amended): `run_simulation` itself performs no parameter validation
and defines no `InvalidParameterError`.  A nonpositive server count makes
the underlying resource construction fail with a generic `ValueError`
before any event executes, but only after the results container with its
parameters record has been created (partial state); the positivity check
for all four parameters lives in the API layer, which rejects the request
before invoking the core. -/
theorem C2_amended_no_core_validation (a s : ℚ) (c : Int) (h : ℚ)
    (seed : Option Int) (g : RandomState) (fuel : Nat) (hc : c ≤ 0) :
    (run_simulation a s c h seed g fuel).outcome
        = Except.error (SimError.valueError "capacity must be greater than 0")
    ∧ (run_simulation a s c h seed g fuel).eventsExecuted = 0
    ∧ (run_simulation a s c h seed g fuel).finalParams = ⟨⟨a, s, c, h, seed⟩, none⟩
    ∧ simulate_rejects a s c h = true := by
  have hrej : simulate_rejects a s c h = true := by
    simp only [simulate_rejects, Bool.or_eq_true, decide_eq_true_eq]
    exact Or.inl (Or.inr hc)
  unfold run_simulation
  rw [if_pos hc]
  exact ⟨rfl, rfl, rfl, hrej⟩

/-- Witness for the amended C2 at `server_count = 0`. -/
theorem C2_amended_no_core_validation_witness :
    (0 : Int) ≤ 0
    ∧ ((run_simulation 10 4 0 10 none ⟨7⟩ 3).outcome
          = Except.error (SimError.valueError "capacity must be greater than 0")
       ∧ (run_simulation 10 4 0 10 none ⟨7⟩ 3).eventsExecuted = 0
       ∧ (run_simulation 10 4 0 10 none ⟨7⟩ 3).finalParams = ⟨⟨10, 4, 0, 10, none⟩, none⟩
       ∧ simulate_rejects 10 4 0 10 = true) :=
  ⟨by decide, C2_amended_no_core_validation 10 4 0 10 none ⟨7⟩ 3 (by decide)⟩

/-! ### Claim C5 — High-tier staffing recommendation -/

/-- C5 (counterexample): at a reachable metrics state with
`wait_times = [0]`, `service_times = [323/20]`, `arrival_rate = 1`,
`server_count = 17`, `duration = 1`, the tier is High
(`traffic_intensity = 323/340 < 1`, `utilization = 19/20 > 0.9`) and
`server_count × utilization / 0.85 = 19` exactly, so the claimed formula
`max(server_count+1, ceil(·)) − server_count` yields 2 — but the code
computes `int(·) + 1 = 20` and recommends 3 staff, not 2. -/
theorem C5_counterexample :
    (calculate_results [0] [323/20] 1 17 1).traffic_intensity < 1
    ∧ 9/10 < (calculate_results [0] [323/20] 1 17 1).utilization
    ∧ max ((17 : Int) + 1)
          ⌈(17 : ℚ) * (calculate_results [0] [323/20] 1 17 1).utilization / (17/20)⌉ - 17 = 2
    ∧ Rec.addStaffHigh 2 ∉ (calculate_results [0] [323/20] 1 17 1).recommendations
    ∧ Rec.addStaffHigh 3 ∈ (calculate_results [0] [323/20] 1 17 1).recommendations := by
  with_unfolding_all decide

/-- C5 (amended): whenever the Critical tier does not apply and
`utilization > 0.90`, the analyzer recommends adding exactly
`max(server_count+1, floor(server_count × utilization / 0.85) + 1)
− server_count` staff (`int(·) + 1`, which agrees with `ceil(·)` except
when the ratio is an exact integer, where the code recommends one more),
and appends the consistency-investigation note if and only if the
wait-time coefficient of variation exceeds 1.5 (equivalently, its square
exceeds 9/4). -/
theorem C5_amended_high_tier_staffing (w sv : List ℚ) (a : ℚ) (c : Int) (h : ℚ)
    (hc : 0 < c)
    (hti : (calculate_results w sv a c h).traffic_intensity < 1)
    (hutil : 9/10 < (calculate_results w sv a c h).utilization) :
    Rec.addStaffHigh
        (max (c + 1)
            (⌊(c : ℚ) * (calculate_results w sv a c h).utilization / (17/20)⌋ + 1) - c)
        ∈ (calculate_results w sv a c h).recommendations
    ∧ (Rec.cvConsistencyHigh ∈ (calculate_results w sv a c h).recommendations
        ↔ 9/4 < (calculate_results w sv a c h).cv_wait_sq) := by
  have hrec : (calculate_results w sv a c h).recommendations
      = tier_recs a c (calculate_results w sv a c h).traffic_intensity
          (calculate_results w sv a c h).utilization
          (calculate_results w sv a c h).avg_wait_time
          (calculate_results w sv a c h).cv_wait_sq
          (calculate_results w sv a c h).service_rate_per_server
        ++ supplementary_recs (calculate_results w sv a c h).avg_wait_time
            (calculate_results w sv a c h).max_wait_time
            (calculate_results w sv a c h).avg_queue_length := rfl
  have hx : (0 : ℚ) < (c : ℚ) * (calculate_results w sv a c h).utilization / (17/20) := by
    apply div_pos
    · apply mul_pos
      · exact_mod_cast hc
      · linarith
    · norm_num
  have hpy : pyInt ((c : ℚ) * (calculate_results w sv a c h).utilization / (17/20))
      = ⌊(c : ℚ) * (calculate_results w sv a c h).utilization / (17/20)⌋ := by
    unfold pyInt
    rw [if_pos (le_of_lt hx)]
  have htier : tier_recs a c (calculate_results w sv a c h).traffic_intensity
      (calculate_results w sv a c h).utilization
      (calculate_results w sv a c h).avg_wait_time
      (calculate_results w sv a c h).cv_wait_sq
      (calculate_results w sv a c h).service_rate_per_server
      = [Rec.utilHigh, Rec.trafficHigh, Rec.avgWaitHigh,
         Rec.addStaffHigh
           (max (c + 1)
              (⌊(c : ℚ) * (calculate_results w sv a c h).utilization / (17/20)⌋ + 1) - c),
         Rec.peakQueueHigh]
        ++ (if 9/4 < (calculate_results w sv a c h).cv_wait_sq
            then [Rec.cvConsistencyHigh] else []) := by
    unfold tier_recs
    rw [if_neg (not_le.mpr hti), if_pos hutil, hpy]
  rw [hrec, htier]
  constructor
  · simp
  · by_cases hcv : 9/4 < (calculate_results w sv a c h).cv_wait_sq
    · simp [hcv]
    · simp only [hcv, if_false, List.append_nil, List.mem_append, List.mem_cons,
        List.not_mem_nil, or_false, iff_false]
      intro hmem
      rcases hmem with hmem | hmem
      · rcases hmem with hmem | hmem | hmem | hmem | hmem <;> exact absurd hmem (by simp)
      · revert hmem
        unfold supplementary_recs
        split_ifs <;> simp

/-- Witness for the amended C5 at the 17-server configuration. -/
theorem C5_amended_high_tier_staffing_witness :
    (0 : Int) < 17
    ∧ (calculate_results [0] [323/20] 1 17 1).traffic_intensity < 1
    ∧ 9/10 < (calculate_results [0] [323/20] 1 17 1).utilization
    ∧ (Rec.addStaffHigh
          (max ((17 : Int) + 1)
              (⌊(17 : ℚ) * (calculate_results [0] [323/20] 1 17 1).utilization / (17/20)⌋ + 1)
            - 17)
          ∈ (calculate_results [0] [323/20] 1 17 1).recommendations
       ∧ (Rec.cvConsistencyHigh ∈ (calculate_results [0] [323/20] 1 17 1).recommendations
          ↔ 9/4 < (calculate_results [0] [323/20] 1 17 1).cv_wait_sq)) :=
  ⟨by decide, by with_unfolding_all decide, by with_unfolding_all decide,
   C5_amended_high_tier_staffing [0] [323/20] 1 17 1 (by decide)
     (by with_unfolding_all decide) (by with_unfolding_all decide)⟩

/-! ### Claim C6 — determinism under a fixed seed -/

/-- C6: For every pair of runs invoked with identical parameters
(`arrival_rate`, `service_rate`, `server_count`, `duration`) and the same
integer seed, the two runs produce identical `patients_served` and
`avg_wait_time` values differing by less than 1e-6 — regardless of the
state the global random stream was left in by earlier work (`random.seed`
resets it, so sequential invocations are covered by taking `g2` to be the
stream state after the first run). -/
theorem C6_seed_determinism (a s : ℚ) (c : Int) (h : ℚ) (sd : Int)
    (g1 g2 : RandomState) (fuel : Nat) :
    (run_simulation a s c h (some sd) g1 fuel).patientsServed
        = (run_simulation a s c h (some sd) g2 fuel).patientsServed
    ∧ |(run_simulation a s c h (some sd) g1 fuel).avgWaitTime
          - (run_simulation a s c h (some sd) g2 fuel).avgWaitTime| < 1/1000000 := by
  rw [run_simulation_seeded_const a s c h sd g1 g2 fuel]
  refine ⟨rfl, ?_⟩
  rw [sub_self, abs_zero]
  norm_num

/-! ### Claim C7 — omitting the seed -/

/-- C7 (counterexample): two invocations that omit the seed argument are
deterministically seeded to the same stream: whatever the global random
state was beforehand (here `⟨0⟩` versus `⟨999⟩`), the two calls coincide
in every observable — because the omitted parameter defaults to the
concrete seed 42, not to unseeded randomness. -/
theorem C7_counterexample :
    run_simulation_noseed 10 4 3 20 ⟨0⟩ 7 = run_simulation_noseed 10 4 3 20 ⟨999⟩ 7 := rfl

set_option maxRecDepth 4000 in
/-- C7 (amended): omitting the seed parameter does not give
non-reproducible randomness: the parameter defaults to 42, so any two
invocations omitting it produce identical results regardless of prior
global stream state.  Non-reproducible behaviour requires passing
`seed=None` explicitly: then the global stream is consumed without
reseeding (`initialRng none g = g`), and two such invocations from
different stream states can serve different patient counts. -/
theorem C7_amended_default_seed :
    (∀ (a s : ℚ) (c : Int) (h : ℚ) (g1 g2 : RandomState) (fuel : Nat),
        run_simulation_noseed a s c h g1 fuel = run_simulation_noseed a s c h g2 fuel)
    ∧ (∀ g : RandomState, initialRng none g = g)
    ∧ (run_simulation 1 1000 1 (1/2) none ⟨4⟩ 2).patientsServed
        ≠ (run_simulation 1 1000 1 (1/2) none ⟨9⟩ 2).patientsServed := by
  refine ⟨fun a s c h g1 g2 fuel => rfl, fun g => rfl, ?_⟩
  with_unfolding_all decide

/-! ### Claim C9 — parameters record during a run -/

set_option maxRecDepth 4000 in
/-- C9 (counterexample): after a concrete successful run the parameters
record is no longer the record built at construction: `calculate_results`
has extended it with the derived analysis block (simulator.py lines
332-339), so the parameters structure is modified during the run. -/
theorem C9_counterexample :
    (run_simulation 1 1 1 (1/1000) (some 42) ⟨0⟩ 3).finalParams
      ≠ (⟨⟨1, 1, 1, 1/1000, some 42⟩, none⟩ : ParamsDict) := by
  with_unfolding_all decide

/-- C9 (amended): the five core parameter fields (`arrival_rate`,
`service_rate`, `servers`, `hours`, `seed`) are never modified by any
operation of the run — simulation, metrics calculation or result assembly
— but the parameters record itself is not immutable: `calculate_results`
appends derived analysis entries to it. -/
theorem C9_amended_core_fields_preserved (a s : ℚ) (c : Int) (h : ℚ)
    (seed : Option Int) (g : RandomState) (fuel : Nat) :
    (run_simulation a s c h seed g fuel).finalParams.base = ⟨a, s, c, h, seed⟩ := by
  unfold run_simulation
  split_ifs <;> rfl

end MediFlow
